import Mathlib

/-!
# Verification of `aftercovid` (sdpython/covidsim): SGD optimizer and SIR model

Shallow embedding of `src/aftercovid/optim/sgd.py` (the authoritative source
under `src/`) and, for the claims about `BaseSIR`/`CovidSIR` whose code is not
under `src/` (only its tests are), a model reconstructed from the spec.

Modelling conventions:
* numpy float arrays are modelled as `List ℚ` (1-D) or `List (List ℚ)` (2-D);
  float arithmetic is modelled by exact rational arithmetic.  A 1-D array's
  shape is its length.
* Python exceptions are modelled with `Except String`; an error result carries
  no state, so "the coefficient array is left unchanged on error" is expressed
  by the operation returning `.error` (no successor state is produced).
* the float power `(time_step + 1) ** power_t` (a transcendental operation for
  fractional `power_t`) is abstracted as an explicit function argument
  `fpow : ℚ → ℚ → ℚ`; every theorem below holds for an arbitrary `fpow`.
* `numpy.random.choice(n, n)` (the per-epoch bootstrap resample) is modelled
  as an explicit oracle `draws : ℕ → List ℕ` giving the sampled row indices
  of each epoch; `GoodDraws n draws` states the documented guarantee of
  `choice` (each sample has length `n` and entries in `[0, n)`).
* console output (`verbose`, `_display_progress`) is pure presentation and not
  modelled.
* `SGDOptimizer` is the only concrete optimizer in the source; the base class'
  fields and methods are inlined into it, with `iteration_ends` given the
  subclass' override (the base method is `pass`).
-/

/-- State of `SGDOptimizer` (fields set by `BaseOptimizer.__init__` and
`SGDOptimizer.__init__`, lines 24-29 and 159-166 of `sgd.py`). -/
structure SGDOptimizer where
  coef : List ℚ
  learning_rate_init : ℚ
  learning_rate : ℚ
  lr_schedule : String
  momentum : ℚ
  power_t : ℚ
  early_th : Option ℚ
  velocity : List ℚ
  deriving Repr, DecidableEq

namespace SGDOptimizer

/-- Elementwise sum of two equal-length vectors (numpy `+` on same-shape
1-D arrays). -/
def vadd (a b : List ℚ) : List ℚ := List.zipWith (· + ·) a b

/-- Elementwise difference (numpy `-`). -/
def vsub (a b : List ℚ) : List ℚ := List.zipWith (· - ·) a b

/-- Scalar times vector (numpy scalar `*` array). -/
def smul (c : ℚ) (a : List ℚ) : List ℚ := a.map (c * ·)

/-- Constructor `SGDOptimizer.__init__` (lines 159-166, calling `BaseOptimizer.__init__`
lines 24-29): stores the hyper-parameters, sets
`learning_rate = float(learning_rate_init)` and
`velocity = numpy.zeros_like(coef)`. -/
def create (coef : List ℚ) (learning_rate_init : ℚ := 1/10)
    (lr_schedule : String := "constant") (momentum : ℚ := 9/10)
    (power_t : ℚ := 1/2) (early_th : Option ℚ := none) : SGDOptimizer :=
  { coef := coef
    learning_rate_init := learning_rate_init
    learning_rate := learning_rate_init
    lr_schedule := lr_schedule
    momentum := momentum
    power_t := power_t
    early_th := early_th
    velocity := List.replicate coef.length 0 }

/-- Method `SGDOptimizer._get_updates` (lines 181-190):
`update = momentum * velocity - learning_rate * grad`; stores the update as
the new velocity and returns it.  Here returned as (update, new state). -/
def get_updates (o : SGDOptimizer) (grad : List ℚ) : List ℚ × SGDOptimizer :=
  let update := vsub (smul o.momentum o.velocity) (smul o.learning_rate grad)
  (update, { o with velocity := update })

/-- Method `BaseOptimizer.update_coef` (lines 34-43): raises `ValueError` when the
shapes of `coef` and `grad` differ, otherwise adds `_get_updates(grad)` to
`coef` in place. -/
def update_coef (o : SGDOptimizer) (grad : List ℚ) : Except String SGDOptimizer :=
  if o.coef.length ≠ grad.length then
    .error "coef and grad must have the same shape."
  else
    let p := get_updates o grad
    .ok { p.2 with coef := vadd p.2.coef p.1 }

/-- Method `SGDOptimizer.iteration_ends` (lines 168-179): under the `invscaling`
schedule sets `learning_rate = float(learning_rate_init) / (time_step + 1) ** power_t`;
otherwise does nothing.  `fpow` abstracts the float power. -/
def iteration_ends (fpow : ℚ → ℚ → ℚ) (o : SGDOptimizer) (time_step : ℕ) :
    SGDOptimizer :=
  if o.lr_schedule = "invscaling" then
    { o with learning_rate := o.learning_rate_init / fpow ((time_step : ℚ) + 1) o.power_t }
  else
    o

end SGDOptimizer

/-- Modelled from the spec: the `BaseSIR` parameter registry
(`aftercovid/models/_base_sir.py`, not under `src/`; only its tests are).
Construction takes three ordered sequences of `(name, value, description)`
triples — parameters `P`, quantities `Q`, constants `C` — and fails when a
name is repeated across the three classes.  (The type-mismatch guards on
non-sequence arguments are enforced by the host types here.) -/
structure BaseSIR where
  P : List (String × ℚ × String)
  Q : List (String × ℚ × String)
  C : List (String × ℚ × String)
  deriving Repr, DecidableEq

namespace BaseSIR

/-- All registered names, in registration order `P ++ Q ++ C`. -/
def allNames (r : BaseSIR) : List String :=
  (r.P ++ r.Q ++ r.C).map (·.1)

/-- Modelled from the spec: registry construction; rejects a name repeated
across `P`, `Q`, `C` ("violated uniqueness ... rejected at construction"). -/
def create (P Q C : List (String × ℚ × String)) : Except String BaseSIR :=
  let r : BaseSIR := ⟨P, Q, C⟩
  if r.allNames.Nodup then .ok r else .error "names must be unique"

/-- Modelled from the spec: `names` returns the sorted set of all registered
names. -/
def names (r : BaseSIR) : List String :=
  r.allNames.mergeSort (· ≤ ·)

/-- Value of `name` in one class' sequence, if present. -/
def classGet (l : List (String × ℚ × String)) (name : String) : Option ℚ :=
  (l.find? (·.1 = name)).map (·.2.1)

/-- Overwrite the value stored for `name` in one class' sequence. -/
def classSet (l : List (String × ℚ × String)) (name : String) (v : ℚ) :
    List (String × ℚ × String) :=
  l.map (fun t => if t.1 = name then (t.1, v, t.2.2) else t)

/-- Modelled from the spec: item read by name (`registry[name]`) returns the
current numeric value, searching `P`, then `Q`, then `C`; lookup error for
unregistered names. -/
def getItem (r : BaseSIR) (name : String) : Except String ℚ :=
  match classGet r.P name with
  | some v => .ok v
  | none =>
    match classGet r.Q name with
    | some v => .ok v
    | none =>
      match classGet r.C name with
      | some v => .ok v
      | none => .error "unknown name"

/-- Modelled from the spec: item write by name (`registry[name] = v`)
overwrites the value for that name in place; lookup error for unregistered
names. -/
def setItem (r : BaseSIR) (name : String) (v : ℚ) : Except String BaseSIR :=
  if (classGet r.P name).isSome ∨ (classGet r.Q name).isSome ∨
      (classGet r.C name).isSome then
    .ok ⟨classSet r.P name v, classSet r.Q name v, classSet r.C name v⟩
  else
    .error "unknown name"

end BaseSIR

/-- Modelled from the spec: the default-configured 4-compartment `CovidSIR`
model (`aftercovid/models/covid_sir.py`, not under `src/`).  Parameters:
transmission rate `beta = 0.5`, recovery rate `mu = 1/14` and death rate
`nu = 1/21` (rates expressed as reciprocals of mean durations; their IEEE-754
doubles print as the spec's `0.07142857142857142` and
`0.047619047619047616`).  Compartments `S, I, R, D` with default state
`S = 9990, I = 10, R = 0, D = 0` (the total population and the spec's golden
value `eval_diff()['S'] = -4.995 = -beta*S*I/N` fix these defaults).
Constant: population `N = 10000`. -/
def CovidSIR.init : BaseSIR :=
  { P := [("beta", 1/2, "transmission rate"),
          ("mu", 1/14, "recovery rate, 1/mean duration until recovery"),
          ("nu", 1/21, "death rate, 1/mean duration until death")]
    Q := [("S", 9990, "susceptible"), ("I", 10, "infected"),
          ("R", 0, "recovered"), ("D", 0, "dead")]
    C := [("N", 10000, "population")] }

namespace CovidSIR

/-- Modelled from the spec: `cst_param` returns the current mapping of the
model's constants and parameters, recomputed from current values (here as an
association list `N, beta, mu, nu`). -/
def cst_param (r : BaseSIR) : List (String × ℚ) :=
  (r.C ++ r.P).map (fun t => (t.1, t.2.1))

/-- Current value of a name with default 0 (internal helper for the
evaluator; every name used below is registered). -/
def val (r : BaseSIR) (name : String) : ℚ :=
  match BaseSIR.getItem r name with
  | .ok v => v
  | .error _ => 0

/-- Modelled from the spec: `eval_diff()` computes each compartment's
instantaneous rate of change from current parameter values and the current
state, one entry per compartment.  Flow edges of the 4-compartment SIR-type
model: infection `S → I` at rate `beta*S*I/N`, recovery `I → R` at rate
`mu*I`, death `I → D` at rate `nu*I`. -/
def eval_diff (r : BaseSIR) : List (String × ℚ) :=
  let beta := val r "beta"
  let mu := val r "mu"
  let nu := val r "nu"
  let N := val r "N"
  let S := val r "S"
  let I := val r "I"
  [("S", -beta * S * I / N),
   ("I", beta * S * I / N - mu * I - nu * I),
   ("R", mu * I),
   ("D", nu * I)]

/-- Modelled from the spec: `R0()` is the basic reproduction number, the
closed-form ratio `beta / (mu + nu)` of the transmission rate and the sum of
the removal-type rates, from current parameter values, with no simulation. -/
def R0 (r : BaseSIR) : ℚ :=
  val r "beta" / (val r "mu" + val r "nu")

end CovidSIR

/-- A numpy array of rationals: 1-D or 2-D (the two ranks the trainer's
documented interface uses). -/
inductive NDArray where
  | one (xs : List ℚ)
  | two (rows : List (List ℚ))
  deriving Repr, DecidableEq

/-- The leading dimension `shape[0]`. -/
def NDArray.shape0 : NDArray → ℕ
  | .one xs => xs.length
  | .two rows => rows.length

/-- A dynamically-typed Python argument, as seen by `isinstance` checks:
either a numpy array, or any other object (carrying only a printable tag,
which none of the guarded code inspects). -/
inductive PyObj where
  | array (a : NDArray)
  | nonArray (tag : String)
  deriving Repr, DecidableEq

/-- Loss closure `fct_loss(coef, X, y) -> float` (train only ever calls it on
the full 2-D `X` and 1-D `y`). -/
def LossFn := List ℚ → List (List ℚ) → List ℚ → ℚ

/-- Gradient closure `fct_grad(coef, x, y) -> array` on one sample. -/
def GradFn := List ℚ → List ℚ → ℚ → List ℚ

/-- Documented guarantee of `numpy.random.choice(n, n)`: every epoch's sample
has exactly `n` entries, all in `[0, n)`. -/
def GoodDraws (n : ℕ) (draws : ℕ → List ℕ) : Prop :=
  ∀ k, (draws k).length = n ∧ ∀ i ∈ draws k, i < n

namespace SGDOptimizer

/-- Result of a `train` call: the returned loss, the optimizer state (whose
`coef` was mutated in place in the original), the `iter_` attribute and the
local `n_samples` counter, plus two ghost traces that record observable
events without influencing the computation: the loss recomputed after each
executed epoch (`lossTrace`) and the argument of each `iteration_ends`
call (`hookTrace`). -/
structure TrainResult where
  loss : ℚ
  opt : SGDOptimizer
  iter : ℕ
  n_samples : ℕ
  lossTrace : List ℚ
  hookTrace : List ℕ
  deriving Repr, DecidableEq

/-- Inner loop of one epoch (lines 80-83): for each sampled row `irow`, in
order, compute `grad = fct_grad(self.coef, X[irow, :], y[irow])` and call
`update_coef(grad)` (whose `ValueError` aborts the whole call).  The draws
oracle guarantees `irow < n`, so in-range indexing is total; `getD` supplies
an irrelevant default out of range. -/
def epochUpdates (fg : GradFn) (rows : List (List ℚ)) (ys : List ℚ)
    (idxs : List ℕ) (o : SGDOptimizer) : Except String SGDOptimizer :=
  idxs.foldlM (fun oc irow => update_coef oc (fg oc.coef (rows.getD irow []) (ys.getD irow 0))) o

/-- The early-stopping test of line 90:
`early_th is not None and loss <= early_th`. -/
def earlyStop (early_th : Option ℚ) (loss : ℚ) : Bool :=
  match early_th with
  | some th => decide (loss ≤ th)
  | none => false

/-- The epoch loop of `BaseOptimizer.train` (lines 78-92), recursing on the
remaining number of epochs (`fuel`); `it` is the current epoch index,
`ns` the `n_samples` counter, `loss` the last computed loss, `itA` the
`iter_` attribute, `ltr`/`htr` the ghost traces. -/
def trainLoop (fpow : ℚ → ℚ → ℚ) (fl : LossFn) (fg : GradFn)
    (rows : List (List ℚ)) (ys : List ℚ) (early_th : Option ℚ)
    (draws : ℕ → List ℕ) :
    (fuel it ns : ℕ) → SGDOptimizer → ℚ → List ℚ → List ℕ →
    Except String TrainResult
  | 0, it, ns, o, loss, ltr, htr => .ok ⟨loss, o, it, ns, ltr, htr⟩
  | fuel + 1, it, ns, o, loss, ltr, htr =>
    match epochUpdates fg rows ys (draws it) o with
    | .error e => .error e
    | .ok o1 =>
      let ns1 := ns + (draws it).length
      let o2 := iteration_ends fpow o1 ns1
      let loss1 := fl o2.coef rows ys
      if earlyStop early_th loss1 then
        .ok ⟨loss1, o2, it + 1, ns1, ltr ++ [loss1], htr ++ [ns1]⟩
      else
        trainLoop fpow fl fg rows ys early_th draws fuel (it + 1) ns1 o2 loss1
          (ltr ++ [loss1]) (htr ++ [ns1])

/-- Method `BaseOptimizer.train` (lines 52-92).  The guards of lines 67-72 run first,
in order: `X` must be an array, `y` must be an array, and their leading
dimensions must agree.  Then the initial full-dataset loss is computed and
the epoch loop runs.  The loop's row indexing is only meaningful for a 2-D
`X` and a 1-D `y` (the trainer's documented interface); any other rank
combination makes `X[irow, :]` or the closures fail dynamically in the
original and is modelled as an error. -/
def train (o : SGDOptimizer) (X y : PyObj) (fl : LossFn) (fg : GradFn)
    (max_iter : ℕ) (early_th : Option ℚ) (fpow : ℚ → ℚ → ℚ)
    (draws : ℕ → List ℕ) : Except String TrainResult :=
  match X with
  | .nonArray _ => .error "X must be an array."
  | .array Xa =>
    match y with
    | .nonArray _ => .error "y must be an array."
    | .array ya =>
      if Xa.shape0 ≠ ya.shape0 then
        .error "X and y must have the same number of rows."
      else
        match Xa, ya with
        | .two rows, .one ys =>
          trainLoop fpow fl fg rows ys early_th draws max_iter 0 0 o
            (fl o.coef rows ys) [] []
        | _, _ => .error "unsupported array ranks"

end SGDOptimizer

namespace SGDOptimizer

/-- Reference run for claim C2, defined from the claim's words (refinement
target, not from the source): for each epoch `k < max_iter`, apply
`update_coef (grad_fn coef X[row] y[row])` once per sampled row of `draws k`
in order, then call `iteration_ends` once with the cumulative number of
per-sample updates applied since the start, then recompute the full-dataset
loss `loss_fn coef X y`.  The state is (optimizer, cumulative update count,
last recomputed loss), starting from the initial full-dataset loss. -/
def claimRun (fpow : ℚ → ℚ → ℚ) (fl : LossFn) (fg : GradFn)
    (rows : List (List ℚ)) (ys : List ℚ) (draws : ℕ → List ℕ)
    (max_iter : ℕ) (o : SGDOptimizer) : Except String (SGDOptimizer × ℕ × ℚ) :=
  (List.range max_iter).foldlM
    (fun s k => do
      let o1 ← (draws k).foldlM
        (fun oc irow => update_coef oc (fg oc.coef (rows.getD irow []) (ys.getD irow 0))) s.1
      let cum := s.2.1 + (draws k).length
      let o2 := iteration_ends fpow o1 cum
      pure (o2, cum, fl o2.coef rows ys))
    (o, 0, fl o.coef rows ys)

end SGDOptimizer

open SGDOptimizer

/-- Reading back a name whose value was just overwritten in one class'
sequence yields the new value (and a name absent before stays absent). -/
theorem classGet_classSet (l : List (String × ℚ × String)) (name : String)
    (v : ℚ) :
    BaseSIR.classGet (BaseSIR.classSet l name v) name =
      (BaseSIR.classGet l name).map (fun _ => v) := by
  induction l with
  | nil => rfl
  | cons t ts ih =>
    by_cases h : t.1 = name
    · simp [BaseSIR.classGet, BaseSIR.classSet, List.find?_cons_of_pos, h]
    · simpa [BaseSIR.classGet, BaseSIR.classSet, List.find?_cons_of_neg, h]
        using ih

/-- A name is among a class' registered names iff looking it up succeeds. -/
theorem classGet_isSome_of_mem (l : List (String × ℚ × String))
    (name : String) (h : name ∈ l.map (·.1)) :
    (BaseSIR.classGet l name).isSome := by
  rcases List.mem_map.1 h with ⟨t, ht, rfl⟩
  have : (l.find? (·.1 = t.1)).isSome :=
    List.find?_isSome.2 ⟨t, ht, by simp⟩
  simpa [BaseSIR.classGet] using this

/-- Claim C9: in every successfully constructed registry, writing a value to
a registered name and reading the same name back returns the written value. -/
theorem claim_C9_roundtrip (P Q C : List (String × ℚ × String)) (r : BaseSIR)
    (name : String) (v : ℚ)
    (h1 : BaseSIR.create P Q C = .ok r) (h2 : name ∈ r.allNames) :
    (BaseSIR.setItem r name v).bind (fun r' => BaseSIR.getItem r' name) =
      .ok v := by
  have h3 : (BaseSIR.classGet r.P name).isSome ∨
      (BaseSIR.classGet r.Q name).isSome ∨
      (BaseSIR.classGet r.C name).isSome := by
    unfold BaseSIR.allNames at h2
    simp only [List.map_append, List.mem_append] at h2
    rcases h2 with (h | h) | h
    · exact Or.inl (classGet_isSome_of_mem _ _ h)
    · exact Or.inr (Or.inl (classGet_isSome_of_mem _ _ h))
    · exact Or.inr (Or.inr (classGet_isSome_of_mem _ _ h))
  have hset : BaseSIR.setItem r name v =
      .ok ⟨BaseSIR.classSet r.P name v, BaseSIR.classSet r.Q name v,
           BaseSIR.classSet r.C name v⟩ := by
    unfold BaseSIR.setItem
    rcases h3 with h | h | h <;> simp [h]
  rw [hset]
  show BaseSIR.getItem _ name = .ok v
  unfold BaseSIR.getItem
  rcases hP : BaseSIR.classGet r.P name with _ | w
  · rcases hQ : BaseSIR.classGet r.Q name with _ | w
    · rcases hC : BaseSIR.classGet r.C name with _ | w
      · rcases h3 with h | h | h
        · rw [hP] at h; simp at h
        · rw [hQ] at h; simp at h
        · rw [hC] at h; simp at h
      · simp [classGet_classSet, hP, hQ, hC]
    · simp [classGet_classSet, hP, hQ]
  · simp [classGet_classSet, hP]

/-- Witness for C9 on a concrete three-class registry. -/
theorem claim_C9_roundtrip_witness :
    BaseSIR.create [("p", 1/2, "PP")] [("q", 3/5, "QQ")] [("N", 3/5, "NN")] =
      .ok ⟨[("p", 1/2, "PP")], [("q", 3/5, "QQ")], [("N", 3/5, "NN")]⟩ ∧
    "q" ∈ BaseSIR.allNames ⟨[("p", 1/2, "PP")], [("q", 3/5, "QQ")], [("N", 3/5, "NN")]⟩ ∧
    (BaseSIR.setItem ⟨[("p", 1/2, "PP")], [("q", 3/5, "QQ")], [("N", 3/5, "NN")]⟩
        "q" (61/10)).bind
      (fun r' => BaseSIR.getItem r' "q") = .ok (61/10) := by
  refine ⟨rfl, by decide, ?_⟩
  exact claim_C9_roundtrip [("p", 1/2, "PP")] [("q", 3/5, "QQ")] [("N", 3/5, "NN")]
    ⟨[("p", 1/2, "PP")], [("q", 3/5, "QQ")], [("N", 3/5, "NN")]⟩ "q" (61/10)
    rfl (by decide)

/-- Claim C8: the default `CovidSIR` model's constant/parameter mapping is
`N = 10000, beta = 1/2, mu = 1/14, nu = 1/21` (the spec quotes `mu` and `nu`
by the shortest decimal round-trips of their IEEE-754 doubles,
`0.07142857142857142` and `0.047619047619047616`, within `10⁻¹⁶` of the
exact rationals); `eval_diff()` has exactly 4 entries with `S` entry exactly
`-4.995`; and `R0()` is exactly `4.2`, computed as `beta / (mu + nu)` from
the current parameter values with no simulation. -/
theorem claim_C8_covid_sir_golden :
    CovidSIR.cst_param CovidSIR.init =
      [("N", 10000), ("beta", 1/2), ("mu", 1/14), ("nu", 1/21)] ∧
    |(1/14 : ℚ) - 0.07142857142857142| < 1/10^16 ∧
    |(1/21 : ℚ) - 0.047619047619047616| < 1/10^16 ∧
    (CovidSIR.eval_diff CovidSIR.init).length = 4 ∧
    List.lookup "S" (CovidSIR.eval_diff CovidSIR.init) = some (-4.995) ∧
    CovidSIR.R0 CovidSIR.init =
      CovidSIR.val CovidSIR.init "beta" /
        (CovidSIR.val CovidSIR.init "mu" + CovidSIR.val CovidSIR.init "nu") ∧
    CovidSIR.R0 CovidSIR.init = 4.2 := by
  refine ⟨rfl, ?_, ?_, rfl, ?_, rfl, ?_⟩
  · rw [abs_sub_lt_iff]; constructor <;> norm_num
  · rw [abs_sub_lt_iff]; constructor <;> norm_num
  · have h : List.lookup "S" (CovidSIR.eval_diff CovidSIR.init) =
        some (-(1/2 : ℚ) * 9990 * 10 / 10000) := rfl
    rw [h]
    norm_num
  · have h : CovidSIR.R0 CovidSIR.init = (1/2 : ℚ) / (1/14 + 1/21) := rfl
    rw [h]
    norm_num

/-- Claim C1: for every `SGDOptimizer` and gradient of the same shape as the
coefficients, `update_coef` sets the velocity to
`momentum * velocity_old - learning_rate * grad` and the coefficients to
`coef_old + velocity_new` (all other fields unchanged), and at construction
the velocity is the zero vector.  Persistence of the velocity between calls
is the state threading of the embedding. -/
theorem claim_C1_momentum_update (o : SGDOptimizer) (grad c : List ℚ)
    (lr : ℚ) (sch : String) (mom pt : ℚ) (eth : Option ℚ)
    (h : o.coef.length = grad.length) :
    update_coef o grad =
      .ok { o with
            velocity := vsub (smul o.momentum o.velocity) (smul o.learning_rate grad),
            coef := vadd o.coef
              (vsub (smul o.momentum o.velocity) (smul o.learning_rate grad)) } ∧
    (SGDOptimizer.create c lr sch mom pt eth).velocity = List.replicate c.length 0 := by
  refine ⟨?_, rfl⟩
  simp [update_coef, get_updates, h]

/-- Witness for C1 at a concrete optimizer and gradient. -/
theorem claim_C1_momentum_update_witness :
    (SGDOptimizer.create [1, 2] (1/10) "constant" (9/10) (1/2) none).coef.length =
      [(3 : ℚ), 4].length ∧
    update_coef (SGDOptimizer.create [1, 2] (1/10) "constant" (9/10) (1/2) none) [3, 4] =
      .ok { SGDOptimizer.create [1, 2] (1/10) "constant" (9/10) (1/2) none with
            velocity := vsub (smul (9/10 : ℚ) [0, 0]) (smul (1/10 : ℚ) [3, 4]),
            coef := vadd [1, 2]
              (vsub (smul (9/10 : ℚ) [0, 0]) (smul (1/10 : ℚ) [3, 4])) } ∧
    (SGDOptimizer.create [5, 6, 7] (1/10) "constant" (9/10) (1/2) none).velocity =
      List.replicate 3 0 := by
  refine ⟨rfl, ?_⟩
  have h := claim_C1_momentum_update
    (SGDOptimizer.create [1, 2] (1/10) "constant" (9/10) (1/2) none) [3, 4]
    [5, 6, 7] (1/10) "constant" (9/10) (1/2) none rfl
  exact ⟨h.1, by simpa using h.2⟩

/-- Claim C4: a gradient whose shape differs from the coefficients' makes
`update_coef` fail with the shape-mismatch error; the error result produces
no successor state, so neither the coefficients nor the velocity change. -/
theorem claim_C4_shape_guard (o : SGDOptimizer) (grad : List ℚ)
    (h : o.coef.length ≠ grad.length) :
    update_coef o grad = .error "coef and grad must have the same shape." := by
  simp [update_coef, h]

/-- Witness for C4 at a concrete optimizer and a too-short gradient. -/
theorem claim_C4_shape_guard_witness :
    (SGDOptimizer.create [1, 2] (1/10) "constant" (9/10) (1/2) none).coef.length ≠
      [(3 : ℚ)].length ∧
    update_coef (SGDOptimizer.create [1, 2] (1/10) "constant" (9/10) (1/2) none) [3] =
      .error "coef and grad must have the same shape." :=
  ⟨by decide,
   claim_C4_shape_guard
     (SGDOptimizer.create [1, 2] (1/10) "constant" (9/10) (1/2) none) [3] (by decide)⟩

/-- Claim C5: under the `invscaling` schedule, `iteration_ends` sets the
learning rate to `learning_rate_init / (time_step + 1) ** power_t` (with the
float power abstracted as `fpow`); the construction stores the given
`learning_rate_init` and `power_t` values in the corresponding fields. -/
theorem claim_C5_invscaling (fpow : ℚ → ℚ → ℚ) (o : SGDOptimizer) (t : ℕ)
    (c : List ℚ) (lr mom pt : ℚ) (eth : Option ℚ)
    (h : o.lr_schedule = "invscaling") :
    (iteration_ends fpow o t).learning_rate =
      o.learning_rate_init / fpow ((t : ℚ) + 1) o.power_t ∧
    (SGDOptimizer.create c lr "invscaling" mom pt eth).learning_rate_init = lr ∧
    (SGDOptimizer.create c lr "invscaling" mom pt eth).power_t = pt := by
  refine ⟨?_, rfl, rfl⟩
  simp [iteration_ends, h]

/-- Witness for C5 at a concrete `invscaling` optimizer, with `fpow`
instantiated by multiplication. -/
theorem claim_C5_invscaling_witness :
    (SGDOptimizer.create [1] 2 "invscaling" (9/10) 3 none).lr_schedule = "invscaling" ∧
    (iteration_ends (· * ·) (SGDOptimizer.create [1] 2 "invscaling" (9/10) 3 none)
        4).learning_rate = 2 / (((4 : ℚ) + 1) * 3) ∧
    (SGDOptimizer.create [1] 2 "invscaling" (9/10) 3 none).learning_rate_init = 2 ∧
    (SGDOptimizer.create [1] 2 "invscaling" (9/10) 3 none).power_t = 3 := by
  have h := claim_C5_invscaling (· * ·)
    (SGDOptimizer.create [1] 2 "invscaling" (9/10) 3 none) 4 [1] 2 (9/10) 3 none rfl
  exact ⟨rfl, h.1, h.2.1, h.2.2⟩

/-- Claim C6: under the `constant` and `adaptive` schedules,
`iteration_ends` is a no-op: the whole optimizer state, the learning rate
included, is unchanged. -/
theorem claim_C6_constant_adaptive_noop (fpow : ℚ → ℚ → ℚ) (o : SGDOptimizer)
    (t : ℕ) (h : o.lr_schedule = "constant" ∨ o.lr_schedule = "adaptive") :
    iteration_ends fpow o t = o := by
  rcases h with h | h <;> simp [iteration_ends, h]

/-- Claim C7: `train` rejects a non-array `X`, then a non-array `y`, then
mismatched leading dimensions, each with the corresponding error; the error
result produces no successor state, so no gradient update has touched the
coefficients. -/
theorem claim_C7_train_guards (o : SGDOptimizer) (tag tag2 : String)
    (Xa ya : NDArray) (y : PyObj) (fl : LossFn) (fg : GradFn) (mi : ℕ)
    (eth : Option ℚ) (fpow : ℚ → ℚ → ℚ) (draws : ℕ → List ℕ)
    (h : Xa.shape0 ≠ ya.shape0) :
    train o (.nonArray tag) y fl fg mi eth fpow draws =
      .error "X must be an array." ∧
    train o (.array Xa) (.nonArray tag2) fl fg mi eth fpow draws =
      .error "y must be an array." ∧
    train o (.array Xa) (.array ya) fl fg mi eth fpow draws =
      .error "X and y must have the same number of rows." := by
  refine ⟨rfl, rfl, ?_⟩
  simp [train, h]

/-- Witness for C7 on concrete ill-typed and ill-shaped inputs. -/
theorem claim_C7_train_guards_witness :
    (NDArray.two [[1], [2]]).shape0 ≠ (NDArray.one [(5 : ℚ)]).shape0 ∧
    train (SGDOptimizer.create [1]) (.nonArray "int") (.array (.one [(5 : ℚ)]))
        (fun _ _ _ => 0) (fun _ x _ => x) 3 none (· * ·) (fun _ => [0]) =
      .error "X must be an array." ∧
    train (SGDOptimizer.create [1]) (.array (.two [[1], [2]])) (.nonArray "str")
        (fun _ _ _ => 0) (fun _ x _ => x) 3 none (· * ·) (fun _ => [0]) =
      .error "y must be an array." ∧
    train (SGDOptimizer.create [1]) (.array (.two [[1], [2]]))
        (.array (.one [(5 : ℚ)]))
        (fun _ _ _ => 0) (fun _ x _ => x) 3 none (· * ·) (fun _ => [0]) =
      .error "X and y must have the same number of rows." := by
  refine ⟨by decide, ?_⟩
  exact claim_C7_train_guards (SGDOptimizer.create [1]) "int" "str"
    (NDArray.two [[1], [2]]) (NDArray.one [(5 : ℚ)]) (.array (.one [(5 : ℚ)]))
    (fun _ _ _ => 0) (fun _ x _ => x) 3 none (· * ·) (fun _ => [0]) (by decide)

/-- Every successful `trainLoop` run executes between `it` and `it + fuel`
epochs (the `iter` field counts completed epochs). -/
theorem trainLoop_iter_bounds (fpow : ℚ → ℚ → ℚ) (fl : LossFn) (fg : GradFn)
    (rows : List (List ℚ)) (ys : List ℚ) (eth : Option ℚ)
    (draws : ℕ → List ℕ) :
    ∀ fuel it ns o loss ltr htr r,
      trainLoop fpow fl fg rows ys eth draws fuel it ns o loss ltr htr = .ok r →
      it ≤ r.iter ∧ r.iter ≤ it + fuel := by
  intro fuel
  induction fuel with
  | zero =>
    intro it ns o loss ltr htr r h
    simp only [trainLoop, Except.ok.injEq] at h
    subst h
    simp
  | succ fuel ih =>
    intro it ns o loss ltr htr r h
    simp only [trainLoop] at h
    split at h
    · exact absurd h (by simp)
    · split at h
      · simp only [Except.ok.injEq] at h
        subst h
        simp only []
        omega
      · have := ih _ _ _ _ _ _ _ h
        omega

/-- With early stopping disabled, a successful `trainLoop` run executes all
its epochs. -/
theorem trainLoop_none_iter (fpow : ℚ → ℚ → ℚ) (fl : LossFn) (fg : GradFn)
    (rows : List (List ℚ)) (ys : List ℚ) (draws : ℕ → List ℕ) :
    ∀ fuel it ns o loss ltr htr r,
      trainLoop fpow fl fg rows ys none draws fuel it ns o loss ltr htr = .ok r →
      r.iter = it + fuel := by
  intro fuel
  induction fuel with
  | zero =>
    intro it ns o loss ltr htr r h
    simp only [trainLoop, Except.ok.injEq] at h
    subst h
    simp
  | succ fuel ih =>
    intro it ns o loss ltr htr r h
    simp only [trainLoop] at h
    split at h
    · exact absurd h (by simp)
    · split at h
      · rename_i hfalse
        exact absurd hfalse (by simp [earlyStop])
      · have := ih _ _ _ _ _ _ _ h
        omega

/-- The test `earlyStop` never fires when no threshold was given. -/
theorem earlyStop_none (l : ℚ) : earlyStop none l = false := rfl

/-- Invariant of the epoch loop under the `choice` guarantee: after `it`
epochs the `n_samples` counter is `it * n` and the recorded `iteration_ends`
arguments are `n, 2n, …, it*n`; a successful run preserves this shape. -/
theorem trainLoop_hook_inv (fpow : ℚ → ℚ → ℚ) (fl : LossFn) (fg : GradFn)
    (rows : List (List ℚ)) (ys : List ℚ) (eth : Option ℚ)
    (draws : ℕ → List ℕ) (n : ℕ) (hd : GoodDraws n draws) :
    ∀ fuel it o loss ltr r,
      trainLoop fpow fl fg rows ys eth draws fuel it (it * n) o loss ltr
        ((List.range it).map fun k => (k + 1) * n) = .ok r →
      r.hookTrace = ((List.range r.iter).map fun k => (k + 1) * n) ∧
      r.n_samples = r.iter * n := by
  intro fuel
  induction fuel with
  | zero =>
    intro it o loss ltr r h
    simp only [trainLoop, Except.ok.injEq] at h
    subst h
    exact ⟨rfl, rfl⟩
  | succ fuel ih =>
    intro it o loss ltr r h
    simp only [trainLoop] at h
    rw [(hd it).1, show it * n + n = (it + 1) * n by ring,
      show ((List.range it).map fun k => (k + 1) * n) ++ [(it + 1) * n] =
        ((List.range (it + 1)).map fun k => (k + 1) * n) by
          rw [List.range_succ]; simp] at h
    split at h
    · exact absurd h (by simp)
    · split at h
      · simp only [Except.ok.injEq] at h
        subst h
        exact ⟨rfl, rfl⟩
      · exact ih (it + 1) _ _ _ _ h

/-- With early stopping disabled, the epoch loop is exactly the fold of the
per-epoch transformation (per-sample updates in order, then the
learning-rate hook at the cumulative sample count, then the full-dataset
loss) over the remaining epoch indices. -/
theorem trainLoop_none_foldlM (fpow : ℚ → ℚ → ℚ) (fl : LossFn) (fg : GradFn)
    (rows : List (List ℚ)) (ys : List ℚ) (draws : ℕ → List ℕ) :
    ∀ fuel it ns o loss ltr htr,
      (trainLoop fpow fl fg rows ys none draws fuel it ns o loss ltr htr).map
        (fun r => (r.opt, r.n_samples, r.loss)) =
      (List.range' it fuel).foldlM
        (fun (s : SGDOptimizer × ℕ × ℚ) k => do
          let o1 ← epochUpdates fg rows ys (draws k) s.1
          let cum := s.2.1 + (draws k).length
          let o2 := iteration_ends fpow o1 cum
          pure (o2, cum, fl o2.coef rows ys))
        (o, ns, loss) := by
  intro fuel
  induction fuel with
  | zero =>
    intro it ns o loss ltr htr
    rfl
  | succ fuel ih =>
    intro it ns o loss ltr htr
    rw [List.range'_succ, List.foldlM_cons]
    simp only [trainLoop, earlyStop_none, Bool.false_eq_true, if_false]
    cases he : epochUpdates fg rows ys (draws it) o with
    | error e => rfl
    | ok o1 =>
      exact ih (it + 1) (ns + (draws it).length) _ _
        (ltr ++ [fl (iteration_ends fpow o1 (ns + (draws it).length)).coef rows ys])
        (htr ++ [ns + (draws it).length])

/-- Claim C2: a successful `train` call runs at most `max_iter` epochs
(exactly `max_iter` when early stopping is off); under the `choice`
guarantee the `iteration_ends` hook is invoked exactly once per epoch with
the cumulative number of per-sample updates (`n, 2n, …`); and with early
stopping off the whole run refines `claimRun`, the fold — written from the
claim's words — that per epoch applies `update_coef (grad_fn coef X[row]
y[row])` once per sampled row in order, invokes the hook, and recomputes
the full-dataset loss `loss_fn coef X y`. -/
theorem claim_C2_epoch_structure (fpow : ℚ → ℚ → ℚ) (fl : LossFn)
    (fg : GradFn) (rows : List (List ℚ)) (ys : List ℚ) (draws : ℕ → List ℕ)
    (max_iter : ℕ) (o : SGDOptimizer) (n : ℕ) (eth : Option ℚ)
    (r : TrainResult) (hx : rows.length = n) (hy : ys.length = n)
    (hd : GoodDraws n draws)
    (hr : train o (.array (.two rows)) (.array (.one ys)) fl fg max_iter eth
      fpow draws = .ok r) :
    r.iter ≤ max_iter ∧
    r.hookTrace = ((List.range r.iter).map fun k => (k + 1) * n) ∧
    r.n_samples = r.iter * n ∧
    (eth = none → r.iter = max_iter) ∧
    (train o (.array (.two rows)) (.array (.one ys)) fl fg max_iter none fpow
        draws).map (fun t => (t.opt, t.n_samples, t.loss)) =
      claimRun fpow fl fg rows ys draws max_iter o := by
  simp only [train, NDArray.shape0] at hr
  rw [if_neg (by simp [hx, hy])] at hr
  have hb := trainLoop_iter_bounds fpow fl fg rows ys eth draws max_iter 0 0 o
    (fl o.coef rows ys) [] [] r hr
  have hr' : trainLoop fpow fl fg rows ys eth draws max_iter 0 (0 * n) o
      (fl o.coef rows ys) [] ((List.range 0).map fun k => (k + 1) * n) =
      .ok r := by
    rw [Nat.zero_mul]; exact hr
  obtain ⟨h1, h2⟩ := trainLoop_hook_inv fpow fl fg rows ys eth draws n hd
    max_iter 0 o (fl o.coef rows ys) [] r hr'
  refine ⟨by omega, h1, h2, ?_, ?_⟩
  · intro h
    subst h
    have := trainLoop_none_iter fpow fl fg rows ys draws max_iter 0 0 o
      (fl o.coef rows ys) [] [] r hr
    omega
  · simp only [train, NDArray.shape0]
    rw [if_neg (by simp [hx, hy])]
    rw [trainLoop_none_foldlM fpow fl fg rows ys draws max_iter 0 0 o
      (fl o.coef rows ys) [] []]
    unfold claimRun
    rw [List.range_eq_range']
    rfl

/-- Witness for C2: one epoch on a one-row dataset. -/
theorem claim_C2_epoch_structure_witness :
    [[(1 : ℚ)]].length = 1 ∧ [(0 : ℚ)].length = 1 ∧
    GoodDraws 1 (fun _ => [0]) ∧
    train (SGDOptimizer.create [0]) (.array (.two [[1]])) (.array (.one [0]))
        (fun _ _ _ => 0) (fun _ x _ => x) 1 none (· * ·) (fun _ => [0]) =
      .ok ⟨0,
        ⟨[(0 : ℚ) + (9/10 * 0 - 1/10 * 1)], 1/10, 1/10, "constant", 9/10,
          1/2, none, [(9/10 : ℚ) * 0 - 1/10 * 1]⟩, 1, 1, [0], [1]⟩ ∧
    ((⟨0,
        ⟨[(0 : ℚ) + (9/10 * 0 - 1/10 * 1)], 1/10, 1/10, "constant", 9/10,
          1/2, none, [(9/10 : ℚ) * 0 - 1/10 * 1]⟩, 1, 1, [0], [1]⟩ :
        TrainResult).iter ≤ 1 ∧
      (⟨0,
        ⟨[(0 : ℚ) + (9/10 * 0 - 1/10 * 1)], 1/10, 1/10, "constant", 9/10,
          1/2, none, [(9/10 : ℚ) * 0 - 1/10 * 1]⟩, 1, 1, [0], [1]⟩ :
        TrainResult).hookTrace = [1] ∧
      (⟨0,
        ⟨[(0 : ℚ) + (9/10 * 0 - 1/10 * 1)], 1/10, 1/10, "constant", 9/10,
          1/2, none, [(9/10 : ℚ) * 0 - 1/10 * 1]⟩, 1, 1, [0], [1]⟩ :
        TrainResult).n_samples = 1 ∧
      (train (SGDOptimizer.create [0]) (.array (.two [[1]])) (.array (.one [0]))
          (fun _ _ _ => 0) (fun _ x _ => x) 1 none (· * ·)
          (fun _ => [0])).map (fun t => (t.opt, t.n_samples, t.loss)) =
        claimRun (· * ·) (fun _ _ _ => 0) (fun _ x _ => x) [[1]] [0]
          (fun _ => [0]) 1 (SGDOptimizer.create [0])) := by
  refine ⟨rfl, rfl, fun k => ⟨rfl, by simp⟩, rfl, ?_⟩
  have h := claim_C2_epoch_structure (· * ·) (fun _ _ _ => 0) (fun _ x _ => x)
    [[1]] [0] (fun _ => [0]) 1 (SGDOptimizer.create [0]) 1 none
    ⟨0, ⟨[(0 : ℚ) + (9/10 * 0 - 1/10 * 1)], 1/10, 1/10, "constant", 9/10,
      1/2, none, [(9/10 : ℚ) * 0 - 1/10 * 1]⟩, 1, 1, [0], [1]⟩
    rfl rfl (fun k => ⟨rfl, by simp⟩) rfl
  exact ⟨h.1, h.2.1, h.2.2.1, h.2.2.2.2⟩

/-- Invariant of the epoch loop under an early-stopping threshold `th`: the
recorded losses before the last all exceed `th`, the returned loss is the
last recorded one (or the incoming loss if no epoch ran), stopping before
exhausting the fuel implies the threshold was met, and if no recorded loss
meets the threshold the fuel is exhausted. -/
theorem trainLoop_some_inv (fpow : ℚ → ℚ → ℚ) (fl : LossFn) (fg : GradFn)
    (rows : List (List ℚ)) (ys : List ℚ) (draws : ℕ → List ℕ)
    (th loss0 : ℚ) :
    ∀ fuel it ns o loss ltr htr r,
      ltr.length = it →
      (∀ l ∈ ltr, ¬ l ≤ th) →
      loss = ltr.getLastD loss0 →
      trainLoop fpow fl fg rows ys (some th) draws fuel it ns o loss ltr htr =
        .ok r →
      r.iter ≤ it + fuel ∧
      r.lossTrace.length = r.iter ∧
      (∀ l ∈ r.lossTrace.dropLast, ¬ l ≤ th) ∧
      r.loss = r.lossTrace.getLastD loss0 ∧
      (r.iter < it + fuel → r.loss ≤ th) ∧
      ((∀ l ∈ r.lossTrace, ¬ l ≤ th) → r.iter = it + fuel) := by
  intro fuel
  induction fuel with
  | zero =>
    intro it ns o loss ltr htr r hlen hprev hloss h
    simp only [trainLoop, Except.ok.injEq] at h
    subst h
    dsimp only
    exact ⟨by omega, hlen, fun l hl => hprev l (List.dropLast_subset _ hl),
      hloss, by omega, fun _ => by omega⟩
  | succ fuel ih =>
    intro it ns o loss ltr htr r hlen hprev hloss h
    simp only [trainLoop] at h
    split at h
    · exact absurd h (by simp)
    · rename_i o1 heq
      split at h
      · rename_i hst
        simp only [earlyStop, decide_eq_true_eq] at hst
        simp only [Except.ok.injEq] at h
        subst h
        dsimp only
        refine ⟨by omega, by simp [hlen], ?_, ?_, fun _ => hst, ?_⟩
        · rw [List.dropLast_concat]
          exact hprev
        · rw [List.getLastD_concat]
        · intro hall
          exact absurd hst (hall _ (by simp))
      · rename_i hsf
        simp only [earlyStop, decide_eq_true_eq] at hsf
        obtain ⟨a1, a2, a3, a4, a5, a6⟩ := ih (it + 1) _ _ _ _ _ r
          (by simp [hlen])
          (by
            intro l hl
            rcases List.mem_append.1 hl with hl | hl
            · exact hprev l hl
            · rw [List.mem_singleton.1 hl]
              exact hsf)
          (List.getLastD_concat _ _ _).symm h
        exact ⟨by omega, a2, a3, a4, fun hlt => a5 (by omega),
          fun hall => by have := a6 hall; omega⟩

/-- Claim C3: when `train` is called with a threshold `th`, every epoch loss
before the last exceeds `th` (so the loop stops at the first epoch whose
recomputed loss is `≤ th` and returns that loss), stopping before
`max_iter` implies the returned loss is `≤ th`, and if no epoch loss ever
reaches the threshold all `max_iter` epochs run and the last recomputed
loss is returned. -/
theorem claim_C3_early_stopping (fpow : ℚ → ℚ → ℚ) (fl : LossFn)
    (fg : GradFn) (rows : List (List ℚ)) (ys : List ℚ) (draws : ℕ → List ℕ)
    (max_iter : ℕ) (o : SGDOptimizer) (th : ℚ) (r : TrainResult)
    (hr : train o (.array (.two rows)) (.array (.one ys)) fl fg max_iter
      (some th) fpow draws = .ok r) :
    (r.iter < max_iter → r.loss ≤ th) ∧
    r.lossTrace.dropLast.all (fun l => decide (th < l)) = true ∧
    r.loss = r.lossTrace.getLastD (fl o.coef rows ys) ∧
    r.lossTrace.length = r.iter ∧
    r.iter ≤ max_iter ∧
    (r.lossTrace.all (fun l => decide (th < l)) = true → r.iter = max_iter) := by
  simp only [train, NDArray.shape0] at hr
  split at hr
  · exact absurd hr (by simp)
  · obtain ⟨a1, a2, a3, a4, a5, a6⟩ := trainLoop_some_inv fpow fl fg rows ys
      draws th (fl o.coef rows ys) max_iter 0 0 o (fl o.coef rows ys) [] [] r
      rfl (by simp) rfl hr
    refine ⟨fun hlt => a5 (by omega), ?_, a4, a2, by omega, ?_⟩
    · exact List.all_eq_true.2 fun l hl => decide_eq_true (not_le.1 (a3 l hl))
    · intro hall
      have := a6 fun l hl =>
        not_le.2 (of_decide_eq_true (List.all_eq_true.1 hall l hl))
      omega

/-- Witness for C3: with threshold 0 and constant-zero loss the run stops
after the first of two allowed epochs. -/
theorem claim_C3_early_stopping_witness :
    train (SGDOptimizer.create [0]) (.array (.two [[1]])) (.array (.one [0]))
        (fun _ _ _ => 0) (fun _ x _ => x) 2 (some 0) (· * ·) (fun _ => [0]) =
      .ok ⟨0,
        ⟨[(0 : ℚ) + (9/10 * 0 - 1/10 * 1)], 1/10, 1/10, "constant", 9/10,
          1/2, none, [(9/10 : ℚ) * 0 - 1/10 * 1]⟩, 1, 1, [0], [1]⟩ ∧
    ((1 < 2 → (0 : ℚ) ≤ 0) ∧
      [(0 : ℚ)].dropLast.all (fun l => decide ((0 : ℚ) < l)) = true ∧
      (0 : ℚ) = [(0 : ℚ)].getLastD 0 ∧
      [(0 : ℚ)].length = 1 ∧
      1 ≤ 2 ∧
      ([(0 : ℚ)].all (fun l => decide ((0 : ℚ) < l)) = true → 1 = 2)) :=
  ⟨rfl,
   claim_C3_early_stopping (· * ·) (fun _ _ _ => 0) (fun _ x _ => x) [[1]]
     [0] (fun _ => [0]) 2 (SGDOptimizer.create [0]) 0
     ⟨0, ⟨[(0 : ℚ) + (9/10 * 0 - 1/10 * 1)], 1/10, 1/10, "constant", 9/10,
       1/2, none, [(9/10 : ℚ) * 0 - 1/10 * 1]⟩, 1, 1, [0], [1]⟩ rfl⟩

/-- The update `update_coef` never reads the `early_th` field. -/
theorem update_coef_early_th (o : SGDOptimizer) (e : Option ℚ) (g : List ℚ) :
    update_coef { o with early_th := e } g =
      (update_coef o g).map (fun t => { t with early_th := e }) := by
  by_cases h : o.coef.length = g.length <;>
    simp only [update_coef, get_updates, h, ne_eq, not_true_eq_false,
      not_false_eq_true, if_true, if_false] <;> rfl

/-- The hook `iteration_ends` never reads the `early_th` field. -/
theorem iteration_ends_early_th (fpow : ℚ → ℚ → ℚ) (o : SGDOptimizer)
    (e : Option ℚ) (t : ℕ) :
    iteration_ends fpow { o with early_th := e } t =
      { iteration_ends fpow o t with early_th := e } := by
  by_cases h : o.lr_schedule = "invscaling" <;> simp [iteration_ends, h]

/-- The per-epoch update fold never reads the `early_th` field. -/
theorem epochUpdates_early_th (fg : GradFn) (rows : List (List ℚ))
    (ys : List ℚ) (idxs : List ℕ) :
    ∀ (o : SGDOptimizer) (e : Option ℚ),
      epochUpdates fg rows ys idxs { o with early_th := e } =
        (epochUpdates fg rows ys idxs o).map (fun t => { t with early_th := e }) := by
  induction idxs with
  | nil => intro o e; rfl
  | cons i idxs ih =>
    intro o e
    simp only [epochUpdates, List.foldlM_cons]
    have hc : ({ o with early_th := e } : SGDOptimizer).coef = o.coef := rfl
    rw [hc, update_coef_early_th]
    cases update_coef o (fg o.coef (rows.getD i []) (ys.getD i 0)) with
    | error msg => rfl
    | ok o1 => exact ih o1 e

/-- The epoch loop never reads the optimizer's `early_th` field (only the
`early_th` argument of `train` drives early stopping). -/
theorem trainLoop_early_th (fpow : ℚ → ℚ → ℚ) (fl : LossFn) (fg : GradFn)
    (rows : List (List ℚ)) (ys : List ℚ) (eth : Option ℚ)
    (draws : ℕ → List ℕ) :
    ∀ fuel it ns o loss ltr htr (e : Option ℚ),
      trainLoop fpow fl fg rows ys eth draws fuel it ns
        { o with early_th := e } loss ltr htr =
      (trainLoop fpow fl fg rows ys eth draws fuel it ns o loss ltr htr).map
        (fun r => { r with opt := { r.opt with early_th := e } }) := by
  intro fuel
  induction fuel with
  | zero => intro it ns o loss ltr htr e; rfl
  | succ fuel ih =>
    intro it ns o loss ltr htr e
    simp only [trainLoop, epochUpdates_early_th]
    cases epochUpdates fg rows ys (draws it) o with
    | error msg => rfl
    | ok o1 =>
      dsimp only [Except.map]
      rw [iteration_ends_early_th]
      have hc : ({ iteration_ends fpow o1 (ns + (draws it).length) with
          early_th := e } : SGDOptimizer).coef =
          (iteration_ends fpow o1 (ns + (draws it).length)).coef := rfl
      rw [hc]
      by_cases hs : earlyStop eth
          (fl (iteration_ends fpow o1 (ns + (draws it).length)).coef rows ys) = true
      · rw [if_pos hs, if_pos hs]
      · rw [if_neg hs, if_neg hs]
        exact ih (it + 1) _ _ _ _ _ e

/-- The trainer `train` never reads the optimizer's `early_th` field. -/
theorem train_early_th (o : SGDOptimizer) (e : Option ℚ) (X y : PyObj)
    (fl : LossFn) (fg : GradFn) (mi : ℕ) (eth : Option ℚ)
    (fpow : ℚ → ℚ → ℚ) (draws : ℕ → List ℕ) :
    train { o with early_th := e } X y fl fg mi eth fpow draws =
      (train o X y fl fg mi eth fpow draws).map
        (fun r => { r with opt := { r.opt with early_th := e } }) := by
  cases X with
  | nonArray tag => rfl
  | array Xa =>
    cases y with
    | nonArray tag => rfl
    | array ya =>
      by_cases hsh : Xa.shape0 ≠ ya.shape0
      · simp only [train, if_pos hsh]
        rfl
      · cases Xa with
        | one xs =>
          cases ya <;> (simp only [train, if_neg hsh]; rfl)
        | two rows =>
          cases ya with
          | two rows2 =>
            simp only [train, if_neg hsh]
            rfl
          | one ys =>
            simp only [train, if_neg hsh]
            exact trainLoop_early_th fpow fl fg rows ys eth draws mi 0 0 o
              (fl o.coef rows ys) [] [] e

/-- Claim C10: the constructor's `early_th` argument is never read by
`train` or `update_coef`.  Two optimizers created identically except for it,
trained with the same arguments and the same random draws, produce results
that agree on everything but the stored `early_th` field: same returned
loss, same coefficients, velocity and learning rate, same epoch count and
traces.  Only `train`'s own `early_th` argument drives early stopping. -/
theorem claim_C10_constructor_early_th_unused (c : List ℚ) (lr : ℚ)
    (sch : String) (mom pt : ℚ) (e1 e2 : Option ℚ) (X y : PyObj)
    (fl : LossFn) (fg : GradFn) (mi : ℕ) (eth : Option ℚ)
    (fpow : ℚ → ℚ → ℚ) (draws : ℕ → List ℕ) :
    (train (SGDOptimizer.create c lr sch mom pt e1) X y fl fg mi eth fpow
        draws).map (fun r => { r with opt := { r.opt with early_th := none } }) =
    (train (SGDOptimizer.create c lr sch mom pt e2) X y fl fg mi eth fpow
        draws).map (fun r => { r with opt := { r.opt with early_th := none } }) := by
  have h1 : SGDOptimizer.create c lr sch mom pt e1 =
      { SGDOptimizer.create c lr sch mom pt none with early_th := e1 } := rfl
  have h2 : SGDOptimizer.create c lr sch mom pt e2 =
      { SGDOptimizer.create c lr sch mom pt none with early_th := e2 } := rfl
  have t1 := train_early_th (SGDOptimizer.create c lr sch mom pt none) e1
    X y fl fg mi eth fpow draws
  have t2 := train_early_th (SGDOptimizer.create c lr sch mom pt none) e2
    X y fl fg mi eth fpow draws
  rw [h1, t1, h2, t2]
  cases train (SGDOptimizer.create c lr sch mom pt none) X y fl fg mi eth
    fpow draws <;> rfl

/-- Witness for C6 at concrete `constant` and `adaptive` optimizers. -/
theorem claim_C6_constant_adaptive_noop_witness :
    ((SGDOptimizer.create [1] 2 "constant" (9/10) (1/2) none).lr_schedule = "constant" ∨
      (SGDOptimizer.create [1] 2 "constant" (9/10) (1/2) none).lr_schedule = "adaptive") ∧
    iteration_ends (· * ·) (SGDOptimizer.create [1] 2 "constant" (9/10) (1/2) none) 7 =
      SGDOptimizer.create [1] 2 "constant" (9/10) (1/2) none ∧
    iteration_ends (· * ·) (SGDOptimizer.create [1] 2 "adaptive" (9/10) (1/2) none) 7 =
      SGDOptimizer.create [1] 2 "adaptive" (9/10) (1/2) none :=
  ⟨Or.inl rfl,
   claim_C6_constant_adaptive_noop (· * ·)
     (SGDOptimizer.create [1] 2 "constant" (9/10) (1/2) none) 7 (Or.inl rfl),
   claim_C6_constant_adaptive_noop (· * ·)
     (SGDOptimizer.create [1] 2 "adaptive" (9/10) (1/2) none) 7 (Or.inr rfl)⟩
